import Mathlib

/-!
Verification of the plexible Plex-client library.

The definitions below are a shallow embedding of the Go sources, taken from
the most evolved snapshot of the repository: the multi-engine client in
src/unnamed/part_004 together with the discovery responder in the first
section of src/discovery.go (earlier snapshots of the same functions live in
src/client.go and src/unnamed/part_001/part_003).  Network handles, loggers
and mutexes are omitted; every registry operation is modelled as a pure
function on the registry's list state, exactly following the Go loop
structure (first-match search, `break` after a hit, append for insertion).
Go runtime panics that the modelled code can raise (send on a closed
channel, `Reset` on a nil `*time.Timer`) are made explicit through
`Except GoPanic`.
-/

namespace Plexible

/-- Runtime panics reachable in the modelled code paths. -/
inductive GoPanic where
  | sendOnClosedChannel
  | resetNilTimer
deriving DecidableEq

/-- ClientInfo, from src/unnamed/part_004 lines 21-27: static client identity. -/
structure ClientInfo where
  ID : String
  Name : String
  Product : String
  Version : String
deriving DecidableEq

/-- PlayerTimeline. Modelled from the spec: the struct itself is absent from
src/ (only referenced by src/unnamed/part_004); spec section 3 gives its fields:
state, time (ms), duration (ms), and optional media coordinates. -/
structure PlayerTimeline where
  State : String
  Time : Int
  Duration : Int
  ContainerKey : String
  RatingKey : String
  Key : String
deriving DecidableEq

/-- Timeline wire element of the final snapshot. Modelled from the spec: the
struct is absent from src/; src/unnamed/part_004 line 455 constructs it as an
embedded PlayerTimeline plus a `Type` tag (spec sections 3 and 4.3).  The Go
field `Type` is called `Ty` here because `Type` is reserved in Lean. -/
structure Timeline where
  playerTimeline : PlayerTimeline
  Ty : String
deriving DecidableEq

/-- Wire Player element, from src/unnamed/part_000 lines 51-59 (`type player`). -/
structure player where
  Title : String
  MachineIdentifier : String
  Product : String
  Version : String
  ProtocolVersion : String
  ProtocolCapabilities : String
  DeviceClass : String
deriving DecidableEq

/-- Stream, from src/unnamed/part_003 lines 558-569. -/
structure Stream where
  ID : Int
  StreamType : Int
  Selected : Int
  Codec : String
  Index : Int
  Channels : Int
  Bitrate : Int
  BitrateMode : String
  Duration : Int
  SamplingRate : Int
deriving DecidableEq

/-- Part, from src/unnamed/part_003 lines 547-555. -/
structure Part where
  ID : Int
  Key : String
  Duration : Int
  File : String
  Size : Int
  Container : String
  Streams : List Stream
deriving DecidableEq

/-- Media, from src/unnamed/part_003 lines 536-544. -/
structure Media where
  ID : Int
  Duration : Int
  Bitrate : Int
  AudioChannels : Int
  AudioCodec : String
  Container : String
  MediaPart : Option Part
deriving DecidableEq

/-- Track, from src/unnamed/part_003 lines 506-533.  The Go field `Type` is
called `Ty` here because `Type` is reserved in Lean. -/
structure Track where
  PlayQueueItemID : Int
  RatingKey : Int
  Key : String
  ParentRatingKey : Int
  GrandparentRatingKey : Int
  GUID : String
  Ty : String
  Title : String
  TitleSort : String
  GrandparentKey : String
  ParentKey : String
  GrandparentTitle : String
  ParentTitle : String
  OriginalTitle : String
  Summary : String
  Index : Int
  ParentIndex : Int
  ViewCount : Int
  LastViewedAt : Int
  Thumb : String
  ParentThumb : String
  GrandparentThumb : String
  Duration : Int
  AddedAt : Int
  UpdatedAt : Int
  TrackMedia : Option Media
deriving DecidableEq

/-- MediaContainer, from src/unnamed/part_003 lines 497-503 (the snapshot that
src/unnamed/part_004 compiles against; it adds `Tracks` to the part_000
version). -/
structure MediaContainer where
  CommandID : String
  MachineIdentifier : String
  Timelines : List Timeline
  Players : List player
  Tracks : List Track
deriving DecidableEq

/-- Registered-player record, from src/unnamed/part_004 lines 30-36
(`playerInfo`).  The Go channels `Timelines` (engine update stream) and `Cmds`
(command sink) are I/O endpoints and carry no registry state, so they are
omitted.  The Go field `Type` is called `Ty` here because `Type` is reserved
in Lean. -/
structure playerInfo where
  Ty : String
  Capabilities : List String
  Timeline : Option PlayerTimeline
deriving DecidableEq

/-- State of a `*time.Timer` as the registry observes it: `active` is set by
`time.AfterFunc`/`Reset` and cleared by `Stop`. -/
structure Timer where
  active : Bool
deriving DecidableEq

/-- State of a polling controller's unbuffered `chan *MediaContainer`: the
values delivered so far and whether `close` has been called. -/
structure PollChan where
  sent : List MediaContainer
  closed : Bool
deriving DecidableEq

/-- The two implementations of the Go `controller` interface, from
src/unnamed/part_004 lines 53-112 (`subscribingController`,
`pollingController`). -/
inductive controllerImpl where
  | subscribing (clientID : String) (url : String)
  | polling (clientID : String) (ch : PollChan)
deriving DecidableEq

/-- ClientID method of both controller kinds (src/unnamed/part_004 lines
61-63 and 104-106). -/
def controllerImpl.ClientID : controllerImpl → String
  | .subscribing k _ => k
  | .polling k _ => k

/-- registeredController, from src/unnamed/part_004 lines 47-51.  `timeout` is
a `*time.Timer` in Go and is nil (`none`) for polling records. -/
structure registeredController where
  controller : controllerImpl
  timeout : Option Timer
  commandID : String
deriving DecidableEq

/-- Client state, from src/unnamed/part_004 lines 116-142: the identity block
plus the two registry lists.  Sockets, logger, locks and the shutdown channel
are I/O handles and are omitted. -/
structure Client where
  Info : ClientInfo
  players : List playerInfo
  controllers : List registeredController
deriving DecidableEq

/-- pollingController.Send, from src/unnamed/part_004 lines 108-112: sends the
container on the record's channel and then closes it.  A send on an already
closed channel is a Go runtime panic. -/
def pollingSend (ch : PollChan) (mc : MediaContainer) : Except GoPanic PollChan :=
  if ch.closed then Except.error GoPanic.sendOnClosedChannel
  else Except.ok { sent := ch.sent ++ [mc], closed := true }

/-- AddPlayer's registry mutation, from src/unnamed/part_004 lines 155-160:
build a record with a nil latest timeline and append it, with no duplicate
check.  The spawned update pump is an I/O loop and is not part of the
registry state. -/
def addPlayer (players : List playerInfo) (playerType : String)
    (capabilities : List String) : List playerInfo :=
  players ++ [{ Ty := playerType, Capabilities := capabilities, Timeline := none }]

/-- updateControllerCommandID, from src/unnamed/part_004 lines 427-436:
overwrite the commandID of the first record whose ClientID matches, then
`break`; no match leaves the table untouched. -/
def updateControllerCommandID : List registeredController → String → String →
    List registeredController
  | [], _, _ => []
  | rc :: rest, clientID, commandID =>
    if rc.controller.ClientID = clientID then
      { rc with commandID := commandID } :: rest
    else
      rc :: updateControllerCommandID rest clientID commandID

/-- playerForType, from src/unnamed/part_004 lines 438-447: first record with
the requested type, if any. -/
def playerForType : List playerInfo → String → Option playerInfo
  | [], _ => none
  | p :: rest, t => if p.Ty = t then some p else playerForType rest t

/-- collectTimelines, from src/unnamed/part_004 lines 449-459: walk the player
records in order, keeping each non-nil latest timeline wrapped in a Timeline
tagged with the record's type. -/
def collectTimelines : List playerInfo → List Timeline
  | [] => []
  | p :: rest =>
    match p.Timeline with
    | some t => { playerTimeline := t, Ty := p.Ty } :: collectTimelines rest
    | none => collectTimelines rest

/-- registerSubscribingController, from src/unnamed/part_004 lines 461-486:
if any record (of either kind) has the requested ClientID, reset its timer
and overwrite its commandID; otherwise append a fresh subscribing record with
a running timer.  `rc.timeout.Reset` on the nil timer of a polling record is
a Go nil-pointer panic, surfaced as `Except.error`. -/
def registerSubscribingController (tbl : List registeredController)
    (clientID url commandID : String) :
    Except GoPanic (List registeredController × registeredController) :=
  match tbl with
  | [] =>
    let rc : registeredController :=
      { controller := .subscribing clientID url, timeout := some ⟨true⟩,
        commandID := commandID }
    Except.ok ([rc], rc)
  | rc :: rest =>
    if rc.controller.ClientID = clientID then
      match rc.timeout with
      | none => Except.error GoPanic.resetNilTimer
      | some _ =>
        let rc' : registeredController :=
          { rc with timeout := some ⟨true⟩, commandID := commandID }
        Except.ok (rc' :: rest, rc')
    else
      match registerSubscribingController rest clientID url commandID with
      | Except.error e => Except.error e
      | Except.ok (t, r) => Except.ok (rc :: t, r)

/-- registerPollingController, from src/unnamed/part_004 lines 488-498:
always appends a fresh polling record with no timer. -/
def registerPollingController (tbl : List registeredController)
    (clientID : String) (ch : PollChan) (commandID : String) :
    List registeredController × registeredController :=
  let rc : registeredController :=
    { controller := .polling clientID ch, timeout := none, commandID := commandID }
  (tbl ++ [rc], rc)

/-- forgetController, from src/unnamed/part_004 lines 500-513: remove the
first record whose ClientID matches and stop its timer if it has one, then
`break`.  The removed record (with its timer stopped) is returned alongside
the new table so the timer effect is observable. -/
def forgetController : List registeredController → String →
    List registeredController × Option registeredController
  | [], _ => ([], none)
  | rc :: rest, clientID =>
    if rc.controller.ClientID = clientID then
      (rest, some { rc with timeout := rc.timeout.map fun _ => ⟨false⟩ })
    else
      let r := forgetController rest clientID
      (rc :: r.1, r.2)

/-- makeTimeline, from src/unnamed/part_004 lines 534-540. -/
def makeTimeline (clientID commandID : String) (timeline : List Timeline) :
    MediaContainer :=
  { CommandID := commandID, MachineIdentifier := clientID,
    Timelines := timeline, Players := [], Tracks := [] }

/-- The MediaContainer built by SendTimeline for one record, from
src/unnamed/part_004 lines 524-532: `makeTimeline(c.Info.ID, rc.commandID, t)`. -/
def sendTimelineMC (id : String) (rc : registeredController)
    (t : List Timeline) : MediaContainer :=
  makeTimeline id rc.commandID t

/-- notifyControllers, from src/unnamed/part_004 lines 515-522: snapshot the
timelines once, then call SendTimeline for every record in table order.  The
result lists the containers delivered, in send order. -/
def notifySends (c : Client) : List MediaContainer :=
  c.controllers.map fun rc => sendTimelineMC c.Info.ID rc (collectTimelines c.players)

/-- The Player element the /resources handler builds for one engine, from
src/unnamed/part_004 lines 215-223. -/
def mkResourcePlayer (info : ClientInfo) (p : playerInfo) : player :=
  { Title := info.Name, MachineIdentifier := info.ID, Product := info.Product,
    Version := info.Version, ProtocolVersion := "1",
    ProtocolCapabilities := String.intercalate (",") p.Capabilities,
    DeviceClass := "htpc" }

/-- Go zero value of the wire `player` struct. -/
def emptyPlayer : player :=
  { Title := "", MachineIdentifier := "", Product := "", Version := "",
    ProtocolVersion := "", ProtocolCapabilities := "", DeviceClass := "" }

/-- The Players list the /resources handler marshals, from
src/unnamed/part_004 lines 212-229: `make([]player, len(c.players))` yields
`len` zero-valued elements, and the loop then appends one real element per
engine after them. -/
def resourcesPlayers (c : Client) : List player :=
  List.replicate c.players.length emptyPlayer ++
    c.players.map (mkResourcePlayer c.Info)

/-- Outcome of the poll handler's `select`, from src/unnamed/part_004 lines
245-249: either the parked channel delivered a container (and the handler
reads the record's commandID at that moment), or the 30 s deadline fired. -/
inductive WaitOutcome where
  | received (mc : MediaContainer) (recordCommandID : String)
  | deadline
deriving DecidableEq

/-- Response body of the /player/timeline/poll handler, from
src/unnamed/part_004 lines 231-255: with wait="1" the handler blocks; on
delivery it responds with the delivered container, on deadline (or with
wait off) it builds a fresh container from collectTimelines with the
commandID variable, which still holds the request's query value. -/
def pollResponse (c : Client) (commandID : String) (wait : Bool)
    (outcome : WaitOutcome) : MediaContainer :=
  if wait then
    match outcome with
    | .received mc _ => mc
    | .deadline => makeTimeline c.Info.ID commandID (collectTimelines c.players)
  else makeTimeline c.Info.ID commandID (collectTimelines c.players)

/-- Key-value pairs of a discovery datagram, from src/discovery.go lines
108-121 (`message`), in source-text order; Go map iteration order is
unspecified, so only the set of pairs is meaningful.  Note the
Protocol-Capabilities entry is commented out in this snapshot. -/
def messageParams (info : ClientInfo) (port : Nat) : List (String × String) :=
  [("Content-Type", "plex/media-player"),
   ("Name", info.Name),
   ("Port", toString port),
   ("Product", info.Product),
   ("Protocol", "plex"),
   ("Protocol-Version", "1"),
   ("Resource-Identifier", info.ID),
   ("Version", info.Version)]

/-- Discovery datagram body, from src/discovery.go lines 123-132: the header
line followed by one `\n`-prefixed `Key: Value` line per parameter. -/
def message (header : String) (info : ClientInfo) (port : Nat) : String :=
  (messageParams info port).foldl
    (fun w kv => w ++ "\n" ++ kv.1 ++ ": " ++ kv.2) header

/-- HELLO datagram, from src/discovery.go lines 70-75. -/
def helloMsg (info : ClientInfo) (port : Nat) : String :=
  message ("HELLO * HTTP/1.0") info port

/-- BYE datagram, from src/discovery.go lines 79-84. -/
def byeMsg (info : ClientInfo) (port : Nat) : String :=
  message ("BYE * HTTP/1.0") info port

/-- Search-response datagram, from src/discovery.go lines 50-66. -/
def searchResponseMsg (info : ClientInfo) (port : Nat) : String :=
  message ("HTTP/1.0 200 OK") info port

/-- Key-value pairs of the earlier snapshot's datagrams, from src/client.go
lines 541-551 (`clientMsg`): this superseded version still emits a
Protocol-Capabilities pair. -/
def clientMsgParams (info : ClientInfo) (port : Nat) : List (String × String) :=
  [("Content-Type", "plex/media-player"),
   ("Name", info.Name),
   ("Port", toString port),
   ("Product", info.Product),
   ("Protocol", "plex"),
   ("Protocol-Version", "1"),
   ("Protocol-Capabilities", "timeline,playback"),
   ("Resource-Identifier", info.ID),
   ("Version", info.Version)]

/-- Key list the spec enumerates for discovery datagrams (spec section 4.1),
written from the spec's words for comparison with `messageParams`. -/
def specDiscoveryKeys : List String :=
  ["Content-Type", "Name", "Port", "Product", "Protocol",
   "Protocol-Version", "Resource-Identifier", "Version"]

/-! Concrete fixtures, mirroring the example player in src/player/player.go
(device id, name, product, version) and small registry states. -/

/-- Identity of the example device in src/player/player.go lines 28-36. -/
def demoInfo : ClientInfo :=
  { ID := "862b2506-ba0a-11e4-b501-cf0a1568e6a3", Name := "sharkbait",
    Product := "GoPlex", Version := "0.0.1" }

/-- A music engine record as the example registers it. -/
def demoMusicPlayer : playerInfo :=
  { Ty := "music", Capabilities := ["timeline", "playback"], Timeline := none }

/-- Device with one music engine and no controllers. -/
def demoClient : Client :=
  { Info := demoInfo, players := [demoMusicPlayer], controllers := [] }

/-- An open, empty polling delivery channel. -/
def openChan : PollChan := { sent := [], closed := false }

/-- Device with one music engine and one registered subscribing controller. -/
def demoClient2 : Client :=
  { Info := demoInfo, players := [demoMusicPlayer],
    controllers := [{ controller := .subscribing ("c9") ("http://c9:32500/"),
                      timeout := some ⟨true⟩, commandID := "7" }] }

/-- A MediaContainer payload for channel experiments. -/
def emptyMC : MediaContainer := makeTimeline ("dev") ("1") []

/-- Helper: looking a type up in an extended registry is unchanged when some
record of that type already exists in the prefix. -/
theorem playerForType_append_left (ps qs : List playerInfo) (t : String)
    (h : ∃ p ∈ ps, p.Ty = t) : playerForType (ps ++ qs) t = playerForType ps t := by
  induction ps with
  | nil =>
    obtain ⟨p, hp, _⟩ := h
    cases hp
  | cons q rest ih =>
    by_cases hq : q.Ty = t
    · simp [playerForType, hq]
    · obtain ⟨p, hp, hpt⟩ := h
      rcases List.mem_cons.mp hp with rfl | hmem
      · exact absurd hpt hq
      · simp [playerForType, hq, ih ⟨p, hmem, hpt⟩]

/-- C7: on the 30-second deadline of a wait=1 poll, the handler's response is
built fresh from collectTimelines and carries the request's original
commandID query value. -/
theorem poll_deadline_echoes_request_commandID (c : Client) (q : String) :
    pollResponse c q true WaitOutcome.deadline =
      makeTimeline c.Info.ID q (collectTimelines c.players) ∧
    (pollResponse c q true WaitOutcome.deadline).CommandID = q :=
  ⟨rfl, rfl⟩

/-- C8: every discovery datagram (HELLO, BYE, and the 200 OK search response)
is its request or response line followed by exactly the eight specified
key-value pairs, each preceded by a single newline separator, and the key set
is exactly the one the spec enumerates. -/
theorem discovery_datagrams_key_set (info : ClientInfo) (port : Nat) :
    (messageParams info port).map Prod.fst = specDiscoveryKeys ∧
    helloMsg info port =
      "HELLO * HTTP/1.0" ++ "\n" ++ "Content-Type" ++ ": " ++ "plex/media-player"
        ++ "\n" ++ "Name" ++ ": " ++ info.Name
        ++ "\n" ++ "Port" ++ ": " ++ toString port
        ++ "\n" ++ "Product" ++ ": " ++ info.Product
        ++ "\n" ++ "Protocol" ++ ": " ++ "plex"
        ++ "\n" ++ "Protocol-Version" ++ ": " ++ "1"
        ++ "\n" ++ "Resource-Identifier" ++ ": " ++ info.ID
        ++ "\n" ++ "Version" ++ ": " ++ info.Version ∧
    byeMsg info port =
      "BYE * HTTP/1.0" ++ "\n" ++ "Content-Type" ++ ": " ++ "plex/media-player"
        ++ "\n" ++ "Name" ++ ": " ++ info.Name
        ++ "\n" ++ "Port" ++ ": " ++ toString port
        ++ "\n" ++ "Product" ++ ": " ++ info.Product
        ++ "\n" ++ "Protocol" ++ ": " ++ "plex"
        ++ "\n" ++ "Protocol-Version" ++ ": " ++ "1"
        ++ "\n" ++ "Resource-Identifier" ++ ": " ++ info.ID
        ++ "\n" ++ "Version" ++ ": " ++ info.Version ∧
    searchResponseMsg info port =
      "HTTP/1.0 200 OK" ++ "\n" ++ "Content-Type" ++ ": " ++ "plex/media-player"
        ++ "\n" ++ "Name" ++ ": " ++ info.Name
        ++ "\n" ++ "Port" ++ ": " ++ toString port
        ++ "\n" ++ "Product" ++ ": " ++ info.Product
        ++ "\n" ++ "Protocol" ++ ": " ++ "plex"
        ++ "\n" ++ "Protocol-Version" ++ ": " ++ "1"
        ++ "\n" ++ "Resource-Identifier" ++ ": " ++ info.ID
        ++ "\n" ++ "Version" ++ ": " ++ info.Version :=
  ⟨rfl, rfl, rfl, rfl⟩

/-- C9: updating the commandID of a clientID that has no record in the table
returns the table unchanged, so membership and every record's commandID,
timer and transport state are untouched. -/
theorem updateCommandID_missing_record_noop (tbl : List registeredController)
    (k cmd : String) (h : ∀ rc ∈ tbl, rc.controller.ClientID ≠ k) :
    updateControllerCommandID tbl k cmd = tbl := by
  induction tbl with
  | nil => rfl
  | cons rc rest ih =>
    have h1 : rc.controller.ClientID ≠ k := h rc (List.mem_cons_self _ _)
    simp only [updateControllerCommandID, if_neg h1]
    rw [ih fun x hx => h x (List.mem_cons_of_mem _ hx)]

/-- Witness for C9 at a concrete table holding only an unrelated controller. -/
theorem updateCommandID_missing_record_noop_witness :
    (∀ rc ∈ demoClient2.controllers, rc.controller.ClientID ≠ "c1") ∧
    updateControllerCommandID demoClient2.controllers ("c1") ("9") =
      demoClient2.controllers :=
  ⟨by decide, updateCommandID_missing_record_noop demoClient2.controllers
    ("c1") ("9") (by decide)⟩

/-- C4: collectTimelines returns exactly the non-null timelines of the
registered engines, one per such engine, in registration order, each tagged
with its engine's type, and nothing else: it coincides with filterMap over
the registry, and its length counts the engines holding a timeline. -/
theorem collectTimelines_exactly_nonnull_in_order (ps : List playerInfo) :
    collectTimelines ps =
      ps.filterMap (fun p => p.Timeline.map
        fun t => { playerTimeline := t, Ty := p.Ty }) ∧
    (collectTimelines ps).length = ps.countP (fun p => p.Timeline.isSome) := by
  induction ps with
  | nil => exact ⟨rfl, rfl⟩
  | cons p rest ih =>
    obtain ⟨ih1, ih2⟩ := ih
    cases hp : p.Timeline with
    | none =>
      refine ⟨?_, ?_⟩
      · simp [collectTimelines, hp, List.filterMap_cons, ih1]
      · simp [collectTimelines, hp, List.countP_cons, ih2]
    | some t =>
      refine ⟨?_, ?_⟩
      · simp [collectTimelines, hp, List.filterMap_cons, ih1]
      · simp [collectTimelines, hp, List.countP_cons, ih2]

/-- C1: in a timeline fan-out, the container delivered at each table position
is stamped with the device id as machineIdentifier and with that record's
currently stored commandID; and every SendTimeline container (including the
initial send on subscribe) is stamped the same way. -/
theorem fanout_stamps_machine_and_commandID (c : Client) (i : Nat)
    (h : i < c.controllers.length) :
    (∃ rc mc, c.controllers.get? i = some rc ∧
      (notifySends c).get? i = some mc ∧
      mc.MachineIdentifier = c.Info.ID ∧
      mc.CommandID = rc.commandID ∧
      mc = makeTimeline c.Info.ID rc.commandID (collectTimelines c.players)) ∧
    ∀ (rc : registeredController) (t : List Timeline),
      (sendTimelineMC c.Info.ID rc t).MachineIdentifier = c.Info.ID ∧
      (sendTimelineMC c.Info.ID rc t).CommandID = rc.commandID := by
  refine ⟨?_, fun rc t => ⟨rfl, rfl⟩⟩
  have h1 : c.controllers.get? i = some (c.controllers.get ⟨i, h⟩) :=
    List.get?_eq_get h
  have h2 : (notifySends c).get? i =
      some (sendTimelineMC c.Info.ID (c.controllers.get ⟨i, h⟩)
        (collectTimelines c.players)) := by
    unfold notifySends
    rw [List.get?_map, h1]
    rfl
  exact ⟨_, _, h1, h2, rfl, rfl, rfl⟩

/-- Witness for C1 at a device with one registered subscribing controller. -/
theorem fanout_stamps_witness :
    0 < demoClient2.controllers.length ∧
    ((∃ rc mc, demoClient2.controllers.get? 0 = some rc ∧
      (notifySends demoClient2).get? 0 = some mc ∧
      mc.MachineIdentifier = demoClient2.Info.ID ∧
      mc.CommandID = rc.commandID ∧
      mc = makeTimeline demoClient2.Info.ID rc.commandID
        (collectTimelines demoClient2.players)) ∧
    ∀ (rc : registeredController) (t : List Timeline),
      (sendTimelineMC demoClient2.Info.ID rc t).MachineIdentifier =
        demoClient2.Info.ID ∧
      (sendTimelineMC demoClient2.Info.ID rc t).CommandID = rc.commandID) :=
  ⟨by decide, fanout_stamps_machine_and_commandID demoClient2 0 (by decide)⟩

/-- Table holding exactly one polling record for c1, built by the polling
registration itself (so its timer is nil), and no subscribing record. -/
def pollingOnlyTable : List registeredController :=
  (registerPollingController [] ("c1") openChan ("5")).1

/-- C2: on a table whose only record for the clientID is a polling record,
the subscribing registration does not leave the polling record in place and
add a subscribing record: it matches the polling record and calls Reset on
its nil timer, a Go nil-pointer panic. -/
theorem registerSubscribing_panics_on_polling_collision :
    (∀ rc ∈ pollingOnlyTable,
      rc.controller.ClientID = "c1" ∧ rc.timeout = none) ∧
    registerSubscribingController pollingOnlyTable ("c1") ("http://c1:32500/")
      ("6") = Except.error GoPanic.resetNilTimer :=
  ⟨by decide, rfl⟩

/-- C3: with one registered engine, the /resources handler's Players list has
two elements, not one: a leading zero-valued Player from the over-allocated
`make`, then the engine's real element. -/
theorem resources_response_duplicates_players :
    (resourcesPlayers demoClient).length = 2 ∧
    (resourcesPlayers demoClient).get? 0 = some emptyPlayer ∧
    (resourcesPlayers demoClient).get? 1 = some
      { Title := "sharkbait",
        MachineIdentifier := "862b2506-ba0a-11e4-b501-cf0a1568e6a3",
        Product := "GoPlex", Version := "0.0.1", ProtocolVersion := "1",
        ProtocolCapabilities := "timeline,playback", DeviceClass := "htpc" } ∧
    (resourcesPlayers demoClient).length ≠ demoClient.players.length := by
  refine ⟨rfl, rfl, by decide, by decide⟩

/-- Counterexample to C5: a second AddPlayer with the type of an existing
record adds a second record of that type, so type is not unique. -/
theorem addPlayer_duplicate_type_not_rejected :
    (addPlayer (addPlayer [] ("music") ["timeline", "playback"]) ("music")
      ["timeline"]).length = 2 ∧
    (addPlayer (addPlayer [] ("music") ["timeline", "playback"]) ("music")
      ["timeline"]).countP (fun p => p.Ty == "music") = 2 := by
  exact ⟨rfl, by decide⟩

/-- C5 as amended: a duplicate AddPlayer is not rejected; it appends a second
record of the same type, raising that type's record count by one, while
playerForType still resolves to the first registered record, leaving
dispatch by type unchanged. -/
theorem addPlayer_appends_duplicate_type (ps : List playerInfo) (t : String)
    (caps : List String) (h : ∃ p ∈ ps, p.Ty = t) :
    addPlayer ps t caps =
      ps ++ [{ Ty := t, Capabilities := caps, Timeline := none }] ∧
    (addPlayer ps t caps).countP (fun p => p.Ty == t) =
      ps.countP (fun p => p.Ty == t) + 1 ∧
    playerForType (addPlayer ps t caps) t = playerForType ps t := by
  refine ⟨rfl, ?_, playerForType_append_left ps _ t h⟩
  simp [addPlayer, List.countP_append, List.countP_cons]

/-- Witness for C5's amended claim at a one-record music registry. -/
theorem addPlayer_appends_duplicate_type_witness :
    (∃ p ∈ [demoMusicPlayer], p.Ty = "music") ∧
    (addPlayer [demoMusicPlayer] ("music") ["playback"] =
      [demoMusicPlayer] ++
        [{ Ty := "music", Capabilities := ["playback"], Timeline := none }] ∧
    (addPlayer [demoMusicPlayer] ("music") ["playback"]).countP
        (fun p => p.Ty == "music") =
      [demoMusicPlayer].countP (fun p => p.Ty == "music") + 1 ∧
    playerForType (addPlayer [demoMusicPlayer] ("music") ["playback"])
        ("music") = playerForType [demoMusicPlayer] ("music")) :=
  ⟨by decide, addPlayer_appends_duplicate_type [demoMusicPlayer] ("music")
    ["playback"] (by decide)⟩

/-- Table with two polling records for the same clientID, produced by two
polling registrations (registerPollingController always appends). -/
def dupPollingTable : List registeredController :=
  (registerPollingController
    (registerPollingController [] ("c1") openChan ("1")).1
    ("c1") openChan ("2")).1

/-- Counterexample to C6: when the table holds two records with the same
clientID, a record with that clientID still exists after Forget. -/
theorem forget_keeps_duplicate_record :
    ∃ rc ∈ (forgetController dupPollingTable ("c1")).1,
      rc.controller.ClientID = "c1" := by decide

/-- C6 as amended: Forget removes only the first record whose clientID
matches, stopping that record's timer if it has one; when the table holds at
most one record with the clientID — the case the registry's uniqueness story
assumes — no record with that clientID remains. -/
theorem forget_removes_first_match (tbl : List registeredController)
    (k : String)
    (h : tbl.countP (fun rc => rc.controller.ClientID == k) ≤ 1) :
    (∀ rc ∈ (forgetController tbl k).1, rc.controller.ClientID ≠ k) ∧
    ∀ rc, (forgetController tbl k).2 = some rc →
      rc.controller.ClientID = k ∧ ∀ tm ∈ rc.timeout, tm.active = false := by
  induction tbl with
  | nil =>
    refine ⟨?_, ?_⟩
    · intro rc hrc
      simp [forgetController] at hrc
    · intro rc hrc
      simp [forgetController] at hrc
  | cons rc0 rest ih =>
    by_cases hc : rc0.controller.ClientID = k
    · have hrest : rest.countP (fun rc => rc.controller.ClientID == k) = 0 := by
        have := h
        rw [List.countP_cons] at this
        simp only [hc, beq_self_eq_true, if_pos] at this
        omega
      have hnone : ∀ x ∈ rest, x.controller.ClientID ≠ k := by
        intro x hx
        have := List.countP_eq_zero.mp hrest x hx
        simpa using this
      refine ⟨?_, ?_⟩
      · intro rc hrc
        simp only [forgetController, if_pos hc] at hrc
        exact hnone rc hrc
      · intro rc hrc
        simp only [forgetController, if_pos hc, Option.some.injEq] at hrc
        subst hrc
        refine ⟨hc, ?_⟩
        intro tm htm
        obtain ⟨a, ha, hfa⟩ := Option.map_eq_some'.mp (Option.mem_def.mp htm)
        rw [← hfa]
    · have hle : rest.countP (fun rc => rc.controller.ClientID == k) ≤ 1 := by
        rw [List.countP_cons] at h
        omega
      obtain ⟨ih1, ih2⟩ := ih hle
      refine ⟨?_, ?_⟩
      · intro rc hrc
        simp only [forgetController, if_neg hc] at hrc
        rcases List.mem_cons.mp hrc with rfl | hmem
        · exact hc
        · exact ih1 rc hmem
      · intro rc hrc
        simp only [forgetController, if_neg hc] at hrc
        exact ih2 rc hrc

/-- Witness for C6's amended claim at a one-record subscribing table. -/
theorem forget_removes_first_match_witness :
    demoClient2.controllers.countP
      (fun rc => rc.controller.ClientID == "c9") ≤ 1 ∧
    ((∀ rc ∈ (forgetController demoClient2.controllers ("c9")).1,
      rc.controller.ClientID ≠ "c9") ∧
    ∀ rc, (forgetController demoClient2.controllers ("c9")).2 = some rc →
      rc.controller.ClientID = "c9" ∧
        ∀ tm ∈ rc.timeout, tm.active = false) :=
  ⟨by decide, forget_removes_first_match demoClient2.controllers ("c9")
    (by decide)⟩

/-- C10: on an open channel, a polling Send delivers exactly the one
container and closes the channel; a second Send on the same record's channel
hits the closed channel and panics; and notifyControllers sends to every
still-registered record without guarding polling records, so the second Send
is reachable. -/
theorem pollingSend_single_delivery_then_closed (ch : PollChan)
    (mc mc2 : MediaContainer) (h : ch.closed = false) :
    pollingSend ch mc = Except.ok { sent := ch.sent ++ [mc], closed := true } ∧
    pollingSend { sent := ch.sent ++ [mc], closed := true } mc2 =
      Except.error GoPanic.sendOnClosedChannel ∧
    ∀ (c : Client), ∀ rc ∈ c.controllers,
      makeTimeline c.Info.ID rc.commandID (collectTimelines c.players) ∈
        notifySends c := by
  refine ⟨by simp [pollingSend, h], by simp [pollingSend], ?_⟩
  intro c rc hrc
  exact List.mem_map.mpr ⟨rc, hrc, rfl⟩

/-- Witness for C10 at an open empty channel. -/
theorem pollingSend_single_delivery_witness :
    openChan.closed = false ∧
    (pollingSend openChan emptyMC =
      Except.ok { sent := openChan.sent ++ [emptyMC], closed := true } ∧
    pollingSend { sent := openChan.sent ++ [emptyMC], closed := true } emptyMC =
      Except.error GoPanic.sendOnClosedChannel ∧
    ∀ (c : Client), ∀ rc ∈ c.controllers,
      makeTimeline c.Info.ID rc.commandID (collectTimelines c.players) ∈
        notifySends c) :=
  ⟨rfl, pollingSend_single_delivery_then_closed openChan emptyMC emptyMC rfl⟩

end Plexible
